import Mathlib

/-!
Verification of boost::hana's `Type` data type (include/boost/hana/type.hpp)
against its specification, as a shallow embedding.

C++ types are modelled by the inductive `CppType`; compile-time values
(constexpr objects) by `CppVal`.  A template metafunction
`template <typename...> class f` is modelled shallowly as a Lean function
`List CppType → CppType`.  Template instantiations that would fail to compile
(e.g. `untype_t<T>` when `T` has no nested `hidden` type) are modelled with
`Option`.
-/

namespace hana

/-- The universe of C++ types relevant to the development.  The constructor
`wrapper T` models the anonymous local struct generated by
`type_detail::make_wrapper<T>()`: it has `using hana_datatype = Type` and
`using hidden = T`, and distinct `T`s yield distinct wrapper types (they are
distinct template instantiations).  `integral t v` models the type of a hana
integral constant (e.g. `bool_<true>`, `size_t<n>`), and `ilist e` models
`std::initializer_list<e>`. -/
inductive CppType where
  | int
  | char
  | long
  | short
  | longlong
  | float
  | double
  | longdouble
  | void
  | bool
  | size_t
  | wrapper (hidden : CppType)
  | integral (t : CppType) (v : Nat)
  | ilist (elem : CppType)
  deriving DecidableEq, Repr

/-- A compile-time C++ value.  `obj ty args` is an object of type `ty`
brace-constructed as `ty{args...}`; `objFromList ty e elems` is an object of
type `ty` constructed from a `std::initializer_list<e>` holding `elems`;
`initList e elems` is a `std::initializer_list<e>` value itself. -/
inductive CppVal where
  | obj (ty : CppType) (args : List CppVal)
  | objFromList (ty : CppType) (elem : CppType) (elems : List CppVal)
  | initList (elem : CppType) (elems : List CppVal)

/-- `decltype` of a value: the C++ type of the object. -/
def decltypeOf : CppVal → CppType
  | .obj ty _ => ty
  | .objFromList ty _ _ => ty
  | .initList e _ => .ilist e

/-- The data-type tags occurring in this development. -/
inductive DataType where
  | Type'
  | Integral
  | Other
  deriving DecidableEq, Repr

/-- The `hana_datatype` tag associated to a C++ type.  The wrapper struct
produced by `make_wrapper` declares `using hana_datatype = Type`
(type.hpp line 74); hana integral constants carry the `Integral` tag
(integral.hpp, included by type.hpp).  Types without a nested
`hana_datatype` are their own data type, collapsed here to `Other`. -/
def datatypeOf : CppType → DataType
  | .wrapper _ => .Type'
  | .integral _ _ => .Integral
  | _ => .Other

/-- The data-type tag of a value: the tag of its `decltype`. -/
def CppVal.tag (v : CppVal) : DataType := datatypeOf (decltypeOf v)

/-- `type<T>` (type.hpp lines 116-117): the constexpr variable holding a
default-constructed object of the wrapper struct `make_wrapper<T>()` returns.
The wrapper is an empty struct, so the value is `wrapper{}`. -/
def type (T : CppType) : CppVal := .obj (.wrapper T) []

/-- `untype_t<T> = typename untype<T>::type = typename T::hidden`
(type.hpp lines 136-144): defined only when `T` is a wrapper type,
otherwise the instantiation fails. -/
def untype_t : CppType → Option CppType
  | .wrapper h => some h
  | _ => none

/-- `decltype_` (type.hpp lines 151-153): `[](auto t) { return type<decltype(t)>; }`. -/
def decltype_ (t : CppVal) : CppVal := type (decltypeOf t)

/-- hana's `size_t<n>`: an integral constant value of type `integral<size_t, n>`. -/
def size_c (n : Nat) : CppVal := .obj (.integral .size_t n) []

/-- hana's `bool_<b>` constant (`true_` / `false_`), an integral constant
value of type `integral<bool, b>`. -/
def bool_ (b : Bool) : CppVal := .obj (.integral .bool (if b then 1 else 0)) []

/-- hana's `true_`. -/
def true_ : CppVal := bool_ true

/-- hana's `false_`. -/
def false_ : CppVal := bool_ false

/-- `sizeof_` (type.hpp lines 163-165):
`[](auto t) { return size_t<sizeof(untype_t<decltype(t)>)>; }`.
`sizeof` is a compiler primitive, taken here as a parameter `sz`. -/
def sizeof_ (sz : CppType → Nat) (t : CppVal) : Option CppVal :=
  (untype_t (decltypeOf t)).map (fun u => size_c (sz u))

/-- The pack expansion `untype_t<decltype(t)>...` over a list of argument
values: fails (no instantiation) as soon as one argument is not a Type
object. -/
def untypeAll : List CppVal → Option (List CppType)
  | [] => some []
  | a :: as =>
    match untype_t (decltypeOf a), untypeAll as with
    | some t, some ts => some (t :: ts)
    | _, _ => none

/-- `template_<f>` applied to arguments (type.hpp lines 167-189):
`operator()(Args...) const { return type<f<untype_t<Args>...>>; }`. -/
def template_ (f : List CppType → CppType) (args : List CppVal) : Option CppVal :=
  (untypeAll args).map (fun ts => type (f ts))

/-- `lift<f>` applied to arguments (type.hpp lines 191-197, 237-238):
`operator()(T ...t) const { return f<untype_t<decltype(t)>...>{}; }` —
a default-constructed object of the instantiated type, not a Type object. -/
def lift (f : List CppType → CppType) (args : List CppVal) : Option CppVal :=
  (untypeAll args).map (fun ts => CppVal.obj (f ts) [])

/-- `lift_<f>` applied to arguments (type.hpp lines 199-204, 245-246):
`operator()(T ...t) const { return f<decltype(t)...>{}; }`. -/
def lift_ (f : List CppType → CppType) (args : List CppVal) : CppVal :=
  .obj (f (args.map decltypeOf)) []

/-- `type_detail::construct` (type.hpp lines 59-69): the call operator of a
Type object.  A single `std::initializer_list` argument selects the
`hidden(ilist)` overload; any other argument list selects
`hidden{args...}`. -/
def construct (hidden : CppType) (args : List CppVal) : CppVal :=
  match args with
  | [.initList e es] => .objFromList hidden e es
  | _ => .obj hidden args

/-- Calling a value as a function through the `construct` base class: only
wrapper-typed values (Type objects) have this call operator. -/
def callType (t : CppVal) (args : List CppVal) : Option CppVal :=
  match decltypeOf t with
  | .wrapper h => some (construct h args)
  | _ => none

/-- `Comparable<Type, Type>::equal_impl` (type.hpp lines 248-257): two
overloads, `equal_impl(T, U)` returning `false_` and the more specialized
`equal_impl(T, T)` returning `true_`; overload resolution selects the
latter exactly when the two argument types are identical. -/
def equal_impl (t u : CppVal) : CppVal :=
  if decltypeOf t = decltypeOf u then true_ else false_

/-- `Functor<Type>::fmap_impl` (type.hpp lines 259-264): `fmap_impl(f, t) = f(t)`. -/
def fmap_impl (f : CppVal → CppVal) (t : CppVal) : CppVal := f t

/-- `Monad<Type>::unit_impl` (type.hpp lines 268-270): `unit_impl(t) = decltype_(t)`. -/
def unit_impl (t : CppVal) : CppVal := decltype_ t

/-- `Monad<Type>::join_impl` (type.hpp lines 272-274):
`join_impl(T t) { return untype_t<T>{}; }` — a default-constructed object of
the type hidden inside `T`; fails to instantiate when `T` is not a wrapper. -/
def join_impl (t : CppVal) : Option CppVal :=
  (untype_t (decltypeOf t)).map (fun h => CppVal.obj h [])

/-- Modelled from the spec: the generic `equal` front-end (comparable.hpp,
not under src/) selects its implementation at compile time by dispatching on
the data-type tags of its arguments; for two `Type`-tagged values it calls
the `Comparable<Type, Type>::equal_impl` instance from type.hpp.  Instances
for other tags are outside the sources. -/
def equal (t u : CppVal) : Option CppVal :=
  match t.tag, u.tag with
  | .Type', .Type' => some (equal_impl t u)
  | _, _ => none

/-- Modelled from the spec: the generic `fmap` front-end (functor.hpp, not
under src/) dispatches on the data-type tag of its second argument; for a
`Type`-tagged value it calls `Functor<Type>::fmap_impl` from type.hpp. -/
def fmap (f : CppVal → CppVal) (t : CppVal) : Option CppVal :=
  match t.tag with
  | .Type' => some (fmap_impl f t)
  | _ => none

/-- Modelled from the spec: the generic `unit` front-end (monad.hpp, not
under src/) dispatches on the explicitly supplied data-type tag; for the
tag `Type` it calls `Monad<Type>::unit_impl` from type.hpp. -/
def unit (d : DataType) (t : CppVal) : Option CppVal :=
  match d with
  | .Type' => some (unit_impl t)
  | _ => none

/-- Modelled from the spec: the generic `join` front-end (monad.hpp, not
under src/) dispatches on the data-type tag of its argument; for a
`Type`-tagged value it calls `Monad<Type>::join_impl` from type.hpp. -/
def join (t : CppVal) : Option CppVal :=
  match t.tag with
  | .Type' => join_impl t
  | _ => none

/-- Modelled from the spec: the contextual conversion to `bool` of a hana or
std integral constant object (integral.hpp / std_integral_constant.hpp, not
under src/): the stored value compared against zero.  Values of
non-integral-constant type do not convert. -/
def toBool : CppVal → Option Bool
  | .obj (.integral _ v) _ => some (v != 0)
  | _ => none

/-- Modelled from the spec: the Foldable operation `count(pred, xs)`
(foldable.hpp / list.hpp, not under src/) returns the number of elements of
the heterogeneous list `xs` whose image under `pred` converts to the
boolean `true`. -/
def count (pred : CppVal → Option CppVal) (xs : List CppVal) : Nat :=
  (xs.filter (fun x => ((pred x).bind toBool).getD false)).length

/-- Modelled from the spec: `list_t<xs...>` (list.hpp, not under src/), the
heterogeneous list of Type objects `list(type<xs>...)`. -/
def list_t (ts : List CppType) : List CppVal := ts.map type

/-- `std::is_floating_point` from the C++ standard library (reached through
boost/hana/adapted/std_integral_constant.hpp): an instantiation is modelled
by its `std::integral_constant<bool, v>` base, with `v` true exactly for the
floating-point types. -/
def is_floating_point (ts : List CppType) : CppType :=
  match ts with
  | [.float] | [.double] | [.longdouble] => .integral .bool 1
  | _ => .integral .bool 0

end hana

namespace hana

theorem untypeAll_map_type (xs : List CppType) :
    untypeAll (xs.map type) = some xs := by
  induction xs with
  | nil => rfl
  | cons x xs ih => simp [untypeAll, type, decltypeOf, untype_t, ih]

theorem true_ne_false : true_ ≠ false_ := by
  intro h
  simp [true_, false_, bool_] at h

theorem wrapper_ne_self : ∀ t : CppType, CppType.wrapper t ≠ t := by
  intro t
  induction t with
  | wrapper h ih =>
    intro hEq
    exact ih (CppType.wrapper.inj hEq)
  | _ => intro hEq; exact CppType.noConfusion hEq

/-- C1: `equal(type<T>, type<U>)` is the compile-time boolean `true_` if and
only if `T` and `U` are the same C++ type (i.e. equality of Type objects
coincides with `std::is_same`), and it is reflexive:
`equal(type<T>, type<T>)` is `true_` for every `T`. -/
theorem equal_type_iff_is_same (T U : CppType) :
    (equal (type T) (type U) = some true_ ↔ T = U)
    ∧ equal (type T) (type T) = some true_ := by
  constructor
  · constructor
    · intro h
      by_contra hne
      have hw : CppType.wrapper T ≠ CppType.wrapper U := by
        intro hww; exact hne (CppType.wrapper.inj hww)
      simp [equal, CppVal.tag, type, decltypeOf, datatypeOf, equal_impl, hw] at h
      exact true_ne_false h.symm
    · intro h
      subst h
      simp [equal, CppVal.tag, type, decltypeOf, datatypeOf, equal_impl]
  · simp [equal, CppVal.tag, type, decltypeOf, datatypeOf, equal_impl]

/-- C2: for every template metafunction `f` and all C++ types `x1, ..., xN`,
`template_<f>(type<x1>, ..., type<xN>)` is `type<f<x1, ..., xN>>`. -/
theorem template_map_type (f : List CppType → CppType) (xs : List CppType) :
    template_ f (xs.map type) = some (type (f xs)) := by
  simp [template_, untypeAll_map_type]

/-- C3: reification round-trips: applying `untype` to the type of the Type
object `type<T>` yields exactly `T` back, for every C++ type `T`. -/
theorem untype_type_roundtrip (T : CppType) :
    untype_t (decltypeOf (type T)) = some T := rfl

/-- C4: every value `type<T>` carries the data-type tag `Type`
(`hana_datatype` of the wrapper struct), and the generic operations
`equal`, `fmap`, `unit`, `join` applied to such values dispatch on that tag
to the per-tag instance registered for `Type` (`equal_impl`, `fmap_impl`,
`unit_impl`, `join_impl` of type.hpp). -/
theorem type_tag_dispatch (T : CppType) :
    (type T).tag = DataType.Type'
    ∧ (∀ u : CppVal, u.tag = DataType.Type' →
        equal (type T) u = some (equal_impl (type T) u))
    ∧ (∀ f : CppVal → CppVal, fmap f (type T) = some (fmap_impl f (type T)))
    ∧ unit DataType.Type' (type T) = some (unit_impl (type T))
    ∧ join (type T) = join_impl (type T) := by
  refine ⟨rfl, ?_, fun f => rfl, rfl, rfl⟩
  intro u hu
  unfold equal
  rw [hu]
  rfl

theorem type_tag_dispatch_app :
    (type CppType.int).tag = DataType.Type'
    ∧ equal (type CppType.int) (type CppType.char)
        = some (equal_impl (type CppType.int) (type CppType.char)) := by
  have h := type_tag_dispatch CppType.int
  exact ⟨h.1, h.2.1 (type CppType.char) rfl⟩

/-- C5: `lift<f>(type<x1>, ..., type<xN>)` is a default-constructed object
of the instantiated type `f<x1, ..., xN>` — which is not the Type object
`type<f<x1, ..., xN>>` — and `lift<f>(t...)` equals
`template_<f>(t...)()`. -/
theorem lift_default_constructed (f : List CppType → CppType) (xs : List CppType) :
    lift f (xs.map type) = some (CppVal.obj (f xs) [])
    ∧ CppVal.obj (f xs) [] ≠ type (f xs)
    ∧ lift f (xs.map type)
        = (template_ f (xs.map type)).bind (fun t => callType t []) := by
  refine ⟨by simp [lift, untypeAll_map_type], ?_, ?_⟩
  · intro h
    have hty : f xs = CppType.wrapper (f xs) := congrArg decltypeOf h
    exact wrapper_ne_self (f xs) hty.symm
  · simp [lift, template_, untypeAll_map_type, callType, type, decltypeOf, construct]

/-- C6: `Type` is a `Monad` instance with `unit(t) = decltype_(t)`, and
`join` collapses a Type-of-a-Type into the inner Type object; in particular
`join(unit(t)) = t` for every Type object `t = type<X>`. -/
theorem type_monad_roundtrip (X : CppType) :
    unit DataType.Type' (type X) = some (decltype_ (type X))
    ∧ join (type (CppType.wrapper X)) = some (type X)
    ∧ (unit DataType.Type' (type X)).bind join = some (type X)
    ∧ ((unit DataType.Type' (type X)).bind join).bind
        (fun j => equal j (type X)) = some true_ := by
  refine ⟨rfl, rfl, rfl, ?_⟩
  simp [unit, unit_impl, decltype_, join, join_impl, CppVal.tag, type,
    decltypeOf, datatypeOf, untype_t, Option.bind, equal, equal_impl]

/-- C7: `count(pred, xs)` counts the elements satisfying the predicate: on
the list `list_t<int, char, long, short, char, long, double, long>`,
elements equal to `type<char>` number 2, elements satisfying
`lift<std::is_floating_point>` number 1, and elements equal to `type<void>`
number 0. -/
theorem count_list_t_example :
    count (fun x => equal x (type CppType.char))
      (list_t [CppType.int, CppType.char, CppType.long, CppType.short,
               CppType.char, CppType.long, CppType.double, CppType.long]) = 2
    ∧ count (fun x => lift is_floating_point [x])
      (list_t [CppType.int, CppType.char, CppType.long, CppType.short,
               CppType.char, CppType.long, CppType.double, CppType.long]) = 1
    ∧ count (fun x => equal x (type CppType.void))
      (list_t [CppType.int, CppType.char, CppType.long, CppType.short,
               CppType.char, CppType.long, CppType.double, CppType.long]) = 0 := by
  refine ⟨rfl, rfl, rfl⟩

/-- C8: every operation of the library is a pure compile-time computation;
in this embedding all operations are total functions (no I/O, no mutable
state in their types), and they are deterministic: two evaluations on equal
arguments yield equal results.  `sizeof` is a compiler primitive and enters
as the parameter `sz`. -/
theorem operations_deterministic (sz : CppType → Nat) :
    (∀ T U : CppType, T = U → type T = type U)
    ∧ (∀ T U : CppType, T = U → untype_t T = untype_t U)
    ∧ (∀ x y : CppVal, x = y → decltype_ x = decltype_ y)
    ∧ (∀ x y : CppVal, x = y → sizeof_ sz x = sizeof_ sz y)
    ∧ (∀ (f : List CppType → CppType) (xs ys : List CppVal),
        xs = ys → template_ f xs = template_ f ys)
    ∧ (∀ (f : List CppType → CppType) (xs ys : List CppVal),
        xs = ys → lift f xs = lift f ys)
    ∧ (∀ (f : List CppType → CppType) (xs ys : List CppVal),
        xs = ys → lift_ f xs = lift_ f ys)
    ∧ (∀ x y u v : CppVal, x = u → y = v → equal x y = equal u v)
    ∧ (∀ (f : CppVal → CppVal) (x y : CppVal), x = y → fmap f x = fmap f y)
    ∧ (∀ x y : CppVal, x = y → unit DataType.Type' x = unit DataType.Type' y)
    ∧ (∀ x y : CppVal, x = y → join x = join y) :=
  ⟨fun _ _ h => by rw [h], fun _ _ h => by rw [h], fun _ _ h => by rw [h],
   fun _ _ h => by rw [h], fun _ _ _ h => by rw [h], fun _ _ _ h => by rw [h],
   fun _ _ _ h => by rw [h], fun _ _ _ _ h1 h2 => by rw [h1, h2],
   fun _ _ _ h => by rw [h], fun _ _ h => by rw [h], fun _ _ h => by rw [h]⟩

theorem operations_deterministic_app :
    type CppType.int = type CppType.int
    ∧ equal (type CppType.int) true_ = equal (type CppType.int) true_ := by
  have h := operations_deterministic (fun _ => 4)
  exact ⟨h.1 CppType.int CppType.int rfl,
         h.2.2.2.2.2.2.2.1 (type CppType.int) true_ (type CppType.int) true_ rfl rfl⟩

/-- C9: `type<T>` is callable as a constructor: `type<T>(args...)` yields an
object of type `T` built as `T{args...}`, except that a single
`std::initializer_list` argument selects the overload constructing `T` from
that initializer list. -/
theorem type_callable_construct (T : CppType) (args : List CppVal) :
    callType (type T) args = some (construct T args)
    ∧ decltypeOf (construct T args) = T
    ∧ (∀ (e : CppType) (es : List CppVal),
        construct T [CppVal.initList e es] = CppVal.objFromList T e es)
    ∧ ((∀ (e : CppType) (es : List CppVal), args ≠ [CppVal.initList e es]) →
        construct T args = CppVal.obj T args) := by
  refine ⟨rfl, ?_, fun e es => rfl, ?_⟩
  · unfold construct
    split
    · rfl
    · rfl
  · intro hns
    unfold construct
    split
    · exact absurd rfl (hns _ _)
    · rfl

theorem type_callable_construct_app :
    construct CppType.int [CppVal.obj CppType.int []]
      = CppVal.obj CppType.int [CppVal.obj CppType.int []] :=
  (type_callable_construct CppType.int [CppVal.obj CppType.int []]).2.2.2
    (by intro e es h; injection h with h1 _; exact CppVal.noConfusion h1)

theorem untypeAll_map_decltype (vs : List CppVal) :
    untypeAll (vs.map decltype_) = some (vs.map decltypeOf) := by
  induction vs with
  | nil => rfl
  | cons v vs ih => simp [untypeAll, decltype_, type, decltypeOf, untype_t, ih]

/-- C10: `lift_<f>` is `compose(lift<f>, decltype_)`: applied to values
`v1, ..., vN` it returns a default-constructed object of type
`f<decltype(v1), ..., decltype(vN)>`, equal to
`lift<f>(decltype_(v1), ..., decltype_(vN))`. -/
theorem liftU_compose_decltype (f : List CppType → CppType) (vs : List CppVal) :
    lift_ f vs = CppVal.obj (f (vs.map decltypeOf)) []
    ∧ some (lift_ f vs) = lift f (vs.map decltype_) := by
  refine ⟨rfl, ?_⟩
  simp [lift, lift_, untypeAll_map_decltype]

end hana
